import Mathlib

/-
Verification development for the Sentiment-Aura repository: a browser
front-end that captures microphone audio, gates it with an RMS
voice-activity detector, streams PCM16 frames to a transcription
WebSocket, routes final transcripts to an LLM-backed sentiment endpoint,
and accumulates UI state (transcript log, mood, keyword set).

Shallow embedding conventions:
- JavaScript numbers that only ever hold exact decimal constants or
  PCM samples are modelled as rationals (no float rounding occurs in the
  modelled paths at the granularity the properties are stated).
- JavaScript string .split(" ") is modelled by splitSpace, character by
  character, with identical semantics (adjacent separators yield empty
  pieces, the empty string yields one empty piece).
- React useRef cells are live mutable state threaded through step
  functions; a React useState value read inside an event-handler closure
  is the value captured when the handler was installed, so such reads are
  modelled by an explicit captured parameter.
- Asynchronous and fallible calls are indexed by an explicit outcome
  value (success payload or failure class), and each handler is a pure
  function from (state, outcome/event) to (state, outputs).
-/

namespace SentimentAura

/-- SentimentLabel mirrors the union type in src/types/sentiment.ts. -/
inductive SentimentLabel
  | positive
  | neutral
  | negative
deriving DecidableEq, Repr

/-- SentimentData mirrors the interface in src/types/sentiment.ts. -/
structure SentimentData where
  sentiment_score : ℚ
  sentiment_label : SentimentLabel
  mood : String
  keywords : List String
deriving DecidableEq, Repr

/-- TranscriptEntry mirrors the interface in src/types/sentiment.ts. -/
structure TranscriptEntry where
  text : String
  timestamp : ℕ
  isFinal : Bool
deriving DecidableEq, Repr

/-- splitSpaceAux walks the characters, cutting a piece at every space,
mirroring JavaScript text.split(" ") semantics exactly. -/
def splitSpaceAux : List Char → List Char → List String
  | [], acc => [String.mk acc.reverse]
  | c :: cs, acc =>
      if c = ' ' then String.mk acc.reverse :: splitSpaceAux cs []
      else splitSpaceAux cs (c :: acc)

/-- splitSpace models JavaScript text.split(" "): adjacent spaces produce
empty pieces and the empty string produces one empty piece. -/
def splitSpace (text : String) : List String :=
  splitSpaceAux text.data []

/-- keywordsFromText models the keyword heuristic used by both the edge
function and the client fallback: split on spaces, keep the words longer
than four characters, take the first three. -/
def keywordsFromText (text : String) : List String :=
  ((splitSpace text).filter (fun w => w.length > 4)).take 3

/-! Client-side sentiment call, src/hooks/useSentimentAnalysis.ts. -/

/-- SentimentCallOutcome indexes the possible outcomes of the supabase
functions invoke call inside analyzeSentiment: either it resolves with
data, or an error is thrown (an invoke error rethrown by the hook, or a
network rejection); both failure paths land in the same catch block. -/
inductive SentimentCallOutcome
  | success (data : SentimentData)
  | failure
deriving DecidableEq

/-- analyzeSentiment models the function of the same name in
src/hooks/useSentimentAnalysis.ts. On any thrown error the catch block
returns the neutral fallback whose keywords are the first three words of
the text longer than four characters; the function itself never rethrows
past the caller boundary, so it is total here. -/
def analyzeSentiment (text : String) (o : SentimentCallOutcome) : SentimentData :=
  match o with
  | .success data => data
  | .failure =>
      { sentiment_score := 1/2
        sentiment_label := .neutral
        mood := "undetermined"
        keywords := keywordsFromText text }

/-! Edge function, supabase/functions/analyze-sentiment/index.ts
(serve handler). -/

/-- UpstreamOutcome indexes what the fetch to the LLM gateway did:
ok carries the parsed tool-call result; rateLimited is HTTP 429;
quotaExhausted is HTTP 402; httpError is any other non-ok status (which
the code turns into a thrown error); malformed is a response whose
tool_calls payload is missing or misnamed (also a thrown error). -/
inductive UpstreamOutcome
  | ok (result : SentimentData)
  | rateLimited
  | quotaExhausted
  | httpError (code : ℕ)
  | malformed
deriving DecidableEq

/-- ServeResponse models the HTTP response the edge function returns:
its status code, the optional error field of the JSON body, and the
sentiment fields of the JSON body. -/
structure ServeResponse where
  status : ℕ
  error : Option String
  sentiment_score : ℚ
  sentiment_label : SentimentLabel
  mood : String
  keywords : List String
deriving DecidableEq, Repr

/-- catchFallbackKeywords models the keyword computation of the final
catch block of the edge function: fallbackKeywords starts as
analysis, error and is replaced by the first three words longer than
four characters when that list is non-empty and the text is a non-empty
string. -/
def catchFallbackKeywords (text : String) : List String :=
  if text = "" then ["analysis", "error"]
  else
    let words := keywordsFromText text
    if words.length > 0 then words else ["analysis", "error"]

/-- catchResponse models the 200-status neutral fallback response built
in the final catch block of the edge function. -/
def catchResponse (text : String) : ServeResponse :=
  { status := 200
    error := none
    sentiment_score := 1/2
    sentiment_label := .neutral
    mood := "undetermined"
    keywords := catchFallbackKeywords text }

/-- serve models the request handler of the edge function
(supabase/functions/analyze-sentiment/index.ts). An empty text fails the
falsy check and throws before the key check (the caught text is then the
initial empty string); a missing LOVABLE_API_KEY throws; HTTP 429 and
HTTP 402 from the gateway return early with their own status codes and
an error field; any other non-ok status or a malformed tool-call payload
throws; every thrown error is converted by the catch block into the
200-status neutral fallback. -/
def serve (text : String) (hasKey : Bool) (up : UpstreamOutcome) : ServeResponse :=
  if text = "" then catchResponse ""
  else if hasKey = false then catchResponse text
  else
    match up with
    | .ok result =>
        { status := 200
          error := none
          sentiment_score := result.sentiment_score
          sentiment_label := result.sentiment_label
          mood := result.mood
          keywords := result.keywords }
    | .rateLimited =>
        { status := 429
          error := some "Rate limit exceeded. Please try again in a moment."
          sentiment_score := 1/2
          sentiment_label := .neutral
          mood := "undetermined"
          keywords := keywordsFromText text }
    | .quotaExhausted =>
        { status := 402
          error := some "AI credits exhausted. Please add credits to continue."
          sentiment_score := 1/2
          sentiment_label := .neutral
          mood := "undetermined"
          keywords := keywordsFromText text }
    | .httpError _ => catchResponse text
    | .malformed => catchResponse text

/-! Transcript router, src/pages/Index.tsx. -/

/-- AppState models the useState cells of the Index component. -/
structure AppState where
  transcripts : List TranscriptEntry
  interimTranscript : String
  sentimentScore : ℚ
  sentimentLabel : SentimentLabel
  mood : String
  keywords : List String
deriving DecidableEq, Repr

/-- initialAppState mirrors the useState initializers of Index. -/
def initialAppState : AppState :=
  { transcripts := []
    interimTranscript := ""
    sentimentScore := 1/2
    sentimentLabel := .neutral
    mood := "neutral"
    keywords := [] }

/-- mergeKeywords models the setKeywords updater in handleTranscript:
newKeywords are the incoming keywords not already included, appended
after the previous list. -/
def mergeKeywords (prev incoming : List String) : List String :=
  prev ++ incoming.filter (fun kw => !(prev.contains kw))

/-- handleTranscript models the synchronous part of the handleTranscript
callback in src/pages/Index.tsx: a final event appends the entry to the
transcript log, clears the interim slot and issues one sentiment request
for the entry text; a non-final event only replaces the interim slot.
The second component is the list of sentiment requests issued. -/
def handleTranscript (s : AppState) (t : TranscriptEntry) : AppState × List String :=
  if t.isFinal then
    ({ s with transcripts := s.transcripts ++ [t], interimTranscript := "" }, [t.text])
  else
    ({ s with interimTranscript := t.text }, [])

/-- applySentimentResult models the state updates performed when an
analyzeSentiment call resolves with a result in handleTranscript. -/
def applySentimentResult (s : AppState) (r : SentimentData) : AppState :=
  { s with
    sentimentScore := r.sentiment_score
    sentimentLabel := r.sentiment_label
    mood := r.mood
    keywords := mergeKeywords s.keywords r.keywords }

/-! Voice-activity gate, src/hooks/useDeepgram.ts (onaudioprocess). -/

/-- SPEECH_THRESHOLD mirrors the constant of the same name: the RMS
amplitude threshold for speech. -/
def SPEECH_THRESHOLD : ℚ := 1/100

/-- SILENCE_DURATION mirrors the constant of the same name: milliseconds
of silence before speech is considered ended. -/
def SILENCE_DURATION : ℕ := 800

/-- sumSquares is the sum of the squared samples of a frame, the value
the handler accumulates before dividing by the length. -/
def sumSquares (samples : List ℚ) : ℚ :=
  (samples.map (fun s => s * s)).sum

/-- isSpeechDetected models the comparison of rms against
SPEECH_THRESHOLD, where rms = sqrt(sumSquares / length). Since both
sides are non-negative and squaring is monotone, rms above threshold
equals SPEECH_THRESHOLD^2 * length < sumSquares, which stays inside ℚ;
the lemma isSpeechDetected_iff_rms below proves the two readings agree
(including the empty frame, where the JavaScript NaN comparison is
false). -/
def isSpeechDetected (samples : List ℚ) : Bool :=
  decide (SPEECH_THRESHOLD ^ 2 * samples.length < sumSquares samples)

/-- truncRat is JavaScript ToInt16 truncation toward zero, restricted to
values that need no wrapping (the clamped scaled samples never wrap). -/
def truncRat (v : ℚ) : ℤ :=
  if v < 0 then -(Int.floor (-v)) else Int.floor v

/-- pcm16Sample models one iteration of the Float32-to-Int16 loop:
clamp the sample to the interval from -1 to 1, scale a negative value by
32768 and a non-negative one by 32767, then truncate by the Int16Array
store. -/
def pcm16Sample (x : ℚ) : ℤ :=
  let s := max (-1) (min 1 x)
  if s < 0 then truncRat (s * 32768) else truncRat (s * 32767)

/-- encodeFramePcm16 converts a whole frame, one Int16 per sample. -/
def encodeFramePcm16 (samples : List ℚ) : List ℤ :=
  samples.map pcm16Sample

/-- int16LEBytes is the little-endian two-byte encoding of one Int16 as
it sits in the Int16Array buffer handed to ws.send. -/
def int16LEBytes (v : ℤ) : List ℕ :=
  let u := (v % 65536).toNat
  [u % 256, u / 256]

/-- frameBytes is the byte content of the transmitted buffer. -/
def frameBytes : List ℤ → List ℕ
  | [] => []
  | v :: vs => int16LEBytes v ++ frameBytes vs

/-- VadState bundles the live voice-activity state: the isSpeaking React
state as the UI observes it, and the silenceTimeoutRef cell modelled as
the absolute deadline of the pending one-shot timer, if any. -/
structure VadState where
  isSpeaking : Bool
  silenceDeadline : Option ℕ
deriving DecidableEq, Repr

/-- onaudioprocess models one invocation of the processor callback
installed by startRecording. The parameter captured is the value of the
isSpeaking useState variable captured by the handler closure when it was
installed: reads of isSpeaking inside the handler see that captured
value, while setIsSpeaking writes the live state. wsOpen is whether
ws.readyState equals WebSocket.OPEN. The second component is the PCM16
frame passed to ws.send, if any. On speech: clear any pending timer, set
the live speaking state, send. On silence: start the one-shot timer only
if none is pending and the captured speaking value is set. When the
socket is not open nothing at all happens. -/
def onaudioprocess (captured : Bool) (st : VadState) (now : ℕ) (wsOpen : Bool)
    (samples : List ℚ) : VadState × Option (List ℤ) :=
  if wsOpen then
    if isSpeechDetected samples then
      ({ isSpeaking := true, silenceDeadline := none }, some (encodeFramePcm16 samples))
    else if st.silenceDeadline = none ∧ captured then
      ({ st with silenceDeadline := some (now + SILENCE_DURATION) }, none)
    else (st, none)
  else (st, none)

/-- onaudioprocessIntended is modelled from the spec: the silence-timer
condition reads the current speaking state (the behavior the code's own
comments and the specification describe), instead of the stale captured
value the installed closure actually reads. It differs from
onaudioprocess only in that one test. -/
def onaudioprocessIntended (st : VadState) (now : ℕ) (wsOpen : Bool)
    (samples : List ℚ) : VadState × Option (List ℤ) :=
  if wsOpen then
    if isSpeechDetected samples then
      ({ isSpeaking := true, silenceDeadline := none }, some (encodeFramePcm16 samples))
    else if st.silenceDeadline = none ∧ st.isSpeaking then
      ({ st with silenceDeadline := some (now + SILENCE_DURATION) }, none)
    else (st, none)
  else (st, none)

/-- fireSilenceTimeout models the setTimeout callback: set the live
speaking state to false and clear the timer cell. It is only ever
invoked when a timer is pending and its deadline has elapsed without
clearTimeout having run. -/
def fireSilenceTimeout (_st : VadState) : VadState :=
  { isSpeaking := false, silenceDeadline := none }

/-! Connection lifecycle, src/hooks/useDeepgram.ts (connect,
startRecording, disconnect). -/

/-- HookState models the ref cells and status flags of useDeepgram: each
ref cell is modelled by whether it currently holds a resource. -/
structure HookState where
  silenceTimeout : Bool
  processor : Bool
  sourceNode : Bool
  audioContext : Bool
  micStream : Bool
  socket : Bool
  isConnected : Bool
  isRecording : Bool
  isSpeaking : Bool
deriving DecidableEq, Repr

/-- idleState is the state with no resource held and all flags down. -/
def idleState : HookState :=
  { silenceTimeout := false
    processor := false
    sourceNode := false
    audioContext := false
    micStream := false
    socket := false
    isConnected := false
    isRecording := false
    isSpeaking := false }

/-- startRecording models the resource acquisitions of startRecording:
a new AudioContext, a media-stream source node, a script processor, and
the recording flag raised. -/
def startRecording (s : HookState) : HookState :=
  { s with
    audioContext := true
    sourceNode := true
    processor := true
    isRecording := true }

/-- disconnect models the teardown function: each ref is released and
nulled only if it is currently set, then all three status flags are
lowered. -/
def disconnect (s : HookState) : HookState :=
  let s1 := if s.silenceTimeout then { s with silenceTimeout := false } else s
  let s2 := if s1.processor then { s1 with processor := false } else s1
  let s3 := if s2.sourceNode then { s2 with sourceNode := false } else s2
  let s4 := if s3.audioContext then { s3 with audioContext := false } else s3
  let s5 := if s4.micStream then { s4 with micStream := false } else s4
  let s6 := if s5.socket then { s5 with socket := false } else s5
  { s6 with isConnected := false, isRecording := false, isSpeaking := false }

/-- ConnectOutcome indexes how a connect() attempt unfolds: the API key
may be missing; getUserMedia may reject before any ref is set; the
WebSocket may error before or after onopen (onerror shows a toast and
calls disconnect); or the connection opens and recording starts. -/
inductive ConnectOutcome
  | noApiKey
  | micDenied
  | wsErrorBeforeOpen
  | wsErrorAfterOpen
  | opened
deriving DecidableEq

/-- connect models a connect() attempt together with the socket
callbacks that resolve it. The Boolean output records whether the caller
was notified of a failure (a destructive toast was shown, and on the
synchronous paths the error was rethrown). On noApiKey and micDenied the
attempt throws before any ref cell is written. On a socket error the
stream and socket refs have been set (the synchronous tail of connect
runs to completion before any socket callback can fire) and onerror
calls disconnect. -/
def connect (s : HookState) (o : ConnectOutcome) : HookState × Bool :=
  match o with
  | .noApiKey => (s, true)
  | .micDenied => (s, true)
  | .wsErrorBeforeOpen =>
      (disconnect { s with micStream := true, socket := true }, true)
  | .wsErrorAfterOpen =>
      (disconnect (startRecording
        { s with micStream := true, socket := true, isConnected := true }), true)
  | .opened =>
      (startRecording { s with micStream := true, socket := true, isConnected := true }, false)

/-! Helper lemmas shared by the claim theorems. -/

/-- Every state, however partially initialized, is sent to the idle
state by disconnect. -/
lemma disconnect_eq_idleState (s : HookState) : disconnect s = idleState := by
  obtain ⟨a, b, c, d, e, f, g, h, i⟩ := s
  cases a <;> cases b <;> cases c <;> cases d <;> cases e <;> cases f <;> rfl

/-- Merging keywords never changes the multiplicity of a keyword that is
already accumulated. -/
lemma mergeKeywords_count_of_mem (prev incoming : List String) (kw : String)
    (h : kw ∈ prev) : (mergeKeywords prev incoming).count kw = prev.count kw := by
  unfold mergeKeywords
  rw [List.count_append]
  have hz : (incoming.filter (fun k => !(prev.contains k))).count kw = 0 := by
    rw [List.count_eq_zero]
    intro hmem
    rw [List.mem_filter] at hmem
    have h2 := hmem.2
    simp at h2
    exact h2 h
  omega

/-! Claim C1. The claim says the sentiment endpoint answers the expected
error classes (rate limit, quota exhaustion, malformed LLM output) with
a 200 status carrying the fallback body. The code in fact returns the
upstream status 429 for the rate-limit class and 402 for the quota
class; only thrown errors (malformed output among them) produce the
200-status fallback. -/

/-- C1 counterexample: on the rate-limit class the endpoint's status is
429, not 200 as the claim states. -/
theorem serve_rateLimited_status_not_200 :
    (serve "really happy today" true UpstreamOutcome.rateLimited).status ≠ 200 := by
  decide

/-- C1 (amended): on the rate-limit and quota classes the endpoint
responds with statuses 429 and 402 respectively, each carrying the
neutral fallback body plus an error field; malformed LLM output and any
other unexpected gateway status produce the 200-status neutral fallback
body without an error field, with never-empty catch keywords. -/
theorem serve_expected_errors_degrade (text : String) (h : text ≠ "") :
    serve text true UpstreamOutcome.rateLimited =
      { status := 429
        error := some "Rate limit exceeded. Please try again in a moment."
        sentiment_score := 1/2
        sentiment_label := .neutral
        mood := "undetermined"
        keywords := keywordsFromText text }
  ∧ serve text true UpstreamOutcome.quotaExhausted =
      { status := 402
        error := some "AI credits exhausted. Please add credits to continue."
        sentiment_score := 1/2
        sentiment_label := .neutral
        mood := "undetermined"
        keywords := keywordsFromText text }
  ∧ serve text true UpstreamOutcome.malformed = catchResponse text
  ∧ (∀ code : ℕ, serve text true (UpstreamOutcome.httpError code) = catchResponse text)
  ∧ (catchResponse text).status = 200
  ∧ (catchResponse text).error = none
  ∧ (catchResponse text).keywords ≠ [] := by
  refine ⟨by simp [serve, h], by simp [serve, h], by simp [serve, h],
    fun code => by simp [serve, h], rfl, rfl, ?_⟩
  show catchFallbackKeywords text ≠ []
  unfold catchFallbackKeywords
  rw [if_neg h]
  show (if (keywordsFromText text).length > 0 then keywordsFromText text
        else ["analysis", "error"]) ≠ []
  split_ifs with hlen
  · exact List.ne_nil_of_length_pos hlen
  · simp

/-- C1 witness: the amended statement applied to a concrete text. -/
theorem serve_expected_errors_degrade_witness :
    "really happy today" ≠ ""
  ∧ serve "really happy today" true UpstreamOutcome.rateLimited =
      { status := 429
        error := some "Rate limit exceeded. Please try again in a moment."
        sentiment_score := 1/2
        sentiment_label := .neutral
        mood := "undetermined"
        keywords := keywordsFromText "really happy today" } :=
  ⟨by decide, (serve_expected_errors_degrade "really happy today" (by decide)).1⟩

/-! Claim C7. The claim says a failed client-side sentiment call yields
the neutral fallback with a non-empty keyword list. The fallback in
useSentimentAnalysis.ts has no non-emptiness guarantee: a text with no
word longer than four characters yields an empty keyword list. -/

/-- C7 counterexample: for the input text hi, the failure fallback's
keyword list is empty, refuting the claimed non-emptiness. -/
theorem analyzeSentiment_failure_keywords_empty :
    (analyzeSentiment "hi" SentimentCallOutcome.failure).keywords = [] := by
  decide

/-- C7 (amended): when the sentiment call fails with a thrown error,
analyzeSentiment returns (instead of throwing past the caller boundary)
a result with label neutral, score one half, mood undetermined, and as
keywords the first three whitespace-separated words of the input longer
than four characters, a list that is possibly empty, never longer than
three, and whose members all have length above four. -/
theorem analyzeSentiment_failure_fallback (text : String) :
    (analyzeSentiment text SentimentCallOutcome.failure).sentiment_label = SentimentLabel.neutral
  ∧ (analyzeSentiment text SentimentCallOutcome.failure).sentiment_score = 1/2
  ∧ (analyzeSentiment text SentimentCallOutcome.failure).mood = "undetermined"
  ∧ (analyzeSentiment text SentimentCallOutcome.failure).keywords = keywordsFromText text
  ∧ (analyzeSentiment text SentimentCallOutcome.failure).keywords.length ≤ 3
  ∧ ∀ w ∈ (analyzeSentiment text SentimentCallOutcome.failure).keywords, 4 < w.length := by
  refine ⟨rfl, rfl, rfl, rfl, ?_, ?_⟩
  · show (keywordsFromText text).length ≤ 3
    unfold keywordsFromText
    rw [List.length_take]
    exact Nat.min_le_left _ _
  · intro w hw
    have hw2 : w ∈ (splitSpace text).filter (fun w => w.length > 4) :=
      List.mem_of_mem_take hw
    have := (List.mem_filter.mp hw2).2
    simpa using this

/-! Claim C4: a final transcript event appends exactly that entry at the
end of the log, clears the interim slot, and issues exactly one sentiment
request carrying the entry's text. -/

/-- C4: the final-transcript branch of handleTranscript grows the log by
exactly the received entry at the end, sets the interim slot to the empty
string, and issues exactly one sentiment request with the entry's text. -/
theorem handleTranscript_final (s : AppState) (t : TranscriptEntry)
    (h : t.isFinal = true) :
    (handleTranscript s t).1.transcripts = s.transcripts ++ [t]
  ∧ (handleTranscript s t).1.transcripts.length = s.transcripts.length + 1
  ∧ (handleTranscript s t).1.interimTranscript = ""
  ∧ (handleTranscript s t).2 = [t.text] := by
  simp [handleTranscript, h]

/-- C4 witness: a concrete final entry fed to the initial state. -/
theorem handleTranscript_final_witness :
    (TranscriptEntry.mk "so happy" 42 true).isFinal = true
  ∧ (handleTranscript initialAppState (TranscriptEntry.mk "so happy" 42 true)).1.transcripts
      = initialAppState.transcripts ++ [TranscriptEntry.mk "so happy" 42 true] :=
  ⟨rfl, (handleTranscript_final initialAppState (TranscriptEntry.mk "so happy" 42 true) rfl).1⟩

/-! Claim C3: a connect attempt that fails through microphone denial or a
streaming-connection error notifies the caller and leaves the idle
disconnected state, with no partially acquired resource referenced. -/

/-- C3: for each failing connect outcome (microphone denied, socket
error before open, socket error after open), the attempt starting from
the idle state ends in the idle state, with every resource reference
cleared, and the caller is notified. -/
theorem connect_failure_clean (o : ConnectOutcome)
    (h : o = ConnectOutcome.micDenied ∨ o = ConnectOutcome.wsErrorBeforeOpen
       ∨ o = ConnectOutcome.wsErrorAfterOpen) :
    connect idleState o = (idleState, true) := by
  rcases h with h | h | h <;> subst h <;> decide

/-- C3 witness: the microphone-denied outcome. -/
theorem connect_failure_clean_witness :
    (ConnectOutcome.micDenied = ConnectOutcome.micDenied
      ∨ ConnectOutcome.micDenied = ConnectOutcome.wsErrorBeforeOpen
      ∨ ConnectOutcome.micDenied = ConnectOutcome.wsErrorAfterOpen)
  ∧ connect idleState ConnectOutcome.micDenied = (idleState, true) :=
  ⟨Or.inl rfl, connect_failure_clean ConnectOutcome.micDenied (Or.inl rfl)⟩

/-! Claim C9: disconnect is unconditional and idempotent. -/

/-- C9: from every resource-holding state, however partial, disconnect
restores the idle state (every resource released, all flags down), and
running it twice equals running it once. -/
theorem disconnect_unconditional_idempotent (s : HookState) :
    disconnect s = idleState ∧ disconnect (disconnect s) = disconnect s := by
  refine ⟨disconnect_eq_idleState s, ?_⟩
  rw [disconnect_eq_idleState s, disconnect_eq_idleState idleState]

/-! Claim C10: a frame delivered while the socket is not open is dropped
entirely, and sending happens only through an open socket. -/

/-- C10: when the socket is not in the OPEN state, the audio handler
leaves the voice-activity state (speaking flag and silence timer)
untouched and sends nothing; moreover any invocation that does send has
the socket open. -/
theorem onaudioprocess_closed_socket (captured : Bool) (st : VadState)
    (now : ℕ) (samples : List ℚ) (wsOpen : Bool) (h : wsOpen = false) :
    onaudioprocess captured st now wsOpen samples = (st, none)
  ∧ ∀ w : Bool, (onaudioprocess captured st now w samples).2 ≠ none → w = true := by
  subst h
  refine ⟨by simp [onaudioprocess], ?_⟩
  intro w hw
  cases w
  · simp [onaudioprocess] at hw
  · rfl

/-- C10 witness: a concrete frame arriving on a closed socket. -/
theorem onaudioprocess_closed_socket_witness :
    (false = false)
  ∧ onaudioprocess false (VadState.mk true (some 5)) 7 false [1] =
      (VadState.mk true (some 5), none) :=
  ⟨rfl, (onaudioprocess_closed_socket false (VadState.mk true (some 5)) 7 [1] false rfl).1⟩

/-- The squared-comparison form of the speech test agrees with the
root-mean-square reading of the source: rms strictly above the threshold,
where rms is the square root of the mean of the squared samples. The
empty frame (where the JavaScript mean is NaN and the comparison is
false) is also covered, Lean division by zero giving sqrt 0. -/
lemma isSpeechDetected_iff_rms (samples : List ℚ) :
    isSpeechDetected samples = true ↔
      (SPEECH_THRESHOLD : ℝ) <
        Real.sqrt ((sumSquares samples : ℝ) / (samples.length : ℝ)) := by
  have hS : (0:ℚ) ≤ sumSquares samples := by
    unfold sumSquares
    apply List.sum_nonneg
    intro x hx
    rw [List.mem_map] at hx
    obtain ⟨y, _, rfl⟩ := hx
    exact mul_self_nonneg y
  rcases eq_or_ne samples [] with rfl | hne
  · rw [isSpeechDetected]
    norm_num [sumSquares, SPEECH_THRESHOLD, Real.sqrt_zero]
  · have hn : 0 < (samples.length : ℝ) := by
      have := List.length_pos.mpr hne
      exact_mod_cast this
    rw [isSpeechDetected, decide_eq_true_eq,
      Real.lt_sqrt (by norm_num [SPEECH_THRESHOLD]), lt_div_iff₀ hn]
    constructor
    · intro hlt
      exact_mod_cast hlt
    · intro hlt
      exact_mod_cast hlt

/-- Every clamped, scaled and truncated sample lies in the signed 16-bit
range. -/
lemma pcm16Sample_range (x : ℚ) :
    -32768 ≤ pcm16Sample x ∧ pcm16Sample x ≤ 32767 := by
  have heq : pcm16Sample x =
      if max (-1) (min 1 x) < 0 then truncRat (max (-1) (min 1 x) * 32768)
      else truncRat (max (-1) (min 1 x) * 32767) := rfl
  rw [heq]
  set s := max (-1) (min 1 x) with hs
  have hs1 : (-1 : ℚ) ≤ s := le_max_left _ _
  have hs2 : s ≤ 1 := max_le (by norm_num) (min_le_left _ _)
  by_cases hneg : s < 0
  · rw [if_pos hneg]
    have hv : s * 32768 < 0 := mul_neg_of_neg_of_pos hneg (by norm_num)
    unfold truncRat
    rw [if_pos hv]
    have hle : -(s * 32768) ≤ ((32768 : ℤ) : ℚ) := by push_cast; linarith
    have hfl : Int.floor (-(s * 32768)) ≤ (32768 : ℤ) := by
      have h2 := Int.floor_le_floor hle
      rwa [Int.floor_intCast] at h2
    have hnn : (0 : ℤ) ≤ Int.floor (-(s * 32768)) :=
      Int.floor_nonneg.mpr (by linarith)
    omega
  · rw [if_neg hneg]
    push_neg at hneg
    have hvnn : (0:ℚ) ≤ s * 32767 := by linarith
    unfold truncRat
    rw [if_neg (not_lt.mpr hvnn)]
    have hfl : Int.floor (s * 32767) ≤ (32767 : ℤ) := by
      have hle : s * 32767 ≤ ((32767 : ℤ) : ℚ) := by push_cast; linarith
      have h2 := Int.floor_le_floor hle
      rwa [Int.floor_intCast] at h2
    have hnn : (0 : ℤ) ≤ Int.floor (s * 32767) := Int.floor_nonneg.mpr hvnn
    omega

/-- The transmitted buffer carries two bytes per Int16 sample. -/
lemma frameBytes_length (l : List ℤ) : (frameBytes l).length = 2 * l.length := by
  induction l with
  | nil => rfl
  | cons v vs ih =>
      show (int16LEBytes v ++ frameBytes vs).length = 2 * (v :: vs).length
      rw [List.length_append, ih, List.length_cons]
      show 2 + 2 * vs.length = 2 * (vs.length + 1)
      omega

/-- With the captured speaking value false, a below-threshold frame
leaves the state untouched and sends nothing, whatever the live state
is: the silence timer cannot be started by the installed handler. -/
lemma onaudioprocess_stale_silent_frame (st : VadState) (now : ℕ)
    (wsOpen : Bool) (samples : List ℚ) (h : isSpeechDetected samples = false) :
    onaudioprocess false st now wsOpen samples = (st, none) := by
  cases wsOpen <;> simp [onaudioprocess, h]

/-! Claim C2. The claim says a below-threshold frame in the speaking
state starts the 800 ms one-shot silence timer, whose uninterrupted
elapse is the only way back to not speaking. The handler installed by
startRecording reads the isSpeaking useState value captured by its
closure at install time, which is false at the start of every session
(recording begins before any speech is detected), not the live value it
has just set. The timer-start condition is therefore never satisfied, so
the silence timer is never started and the state never returns to not
speaking, contradicting the claim, the specification, and the code's own
comments around SILENCE_DURATION. -/

/-- C2 failing run, evaluated on the code: a speech frame puts the live
state in speaking with no pending timer; the next below-threshold frame,
processed by the handler whose captured speaking value is false, leaves
the state unchanged and starts no timer; the intended handler (modelled
from the spec, reading the live speaking state) would have armed the
one-shot timer with deadline now plus 800 ms. -/
theorem silence_timer_never_starts :
    (onaudioprocess false (VadState.mk false none) 0 true [1]).1 = VadState.mk true none
  ∧ onaudioprocess false (VadState.mk true none) 1000 true [0] = (VadState.mk true none, none)
  ∧ (onaudioprocessIntended (VadState.mk true none) 1000 true [0]).1.silenceDeadline
      = some 1800 := by
  refine ⟨?_, ?_, ?_⟩
  · norm_num [onaudioprocess, isSpeechDetected, sumSquares, SPEECH_THRESHOLD]
  · exact onaudioprocess_stale_silent_frame (VadState.mk true none) 1000 true [0]
      (by norm_num [isSpeechDetected, sumSquares, SPEECH_THRESHOLD])
  · norm_num [onaudioprocessIntended, isSpeechDetected, sumSquares,
      SPEECH_THRESHOLD, SILENCE_DURATION]

/-! Claim C5: an above-threshold frame is transmitted as 16-bit PCM, two
bytes per input sample, every encoded sample within the signed 16-bit
range after clamping to the unit interval. -/

/-- C5: when speech is detected on an open socket, the handler sends
exactly the clamp-scale-truncate encoding of the frame; its byte buffer
has length exactly twice the sample count, and every encoded sample lies
between -32768 and 32767. -/
theorem pcm16_frame_encoding (captured : Bool) (st : VadState) (now : ℕ)
    (samples : List ℚ) (h : isSpeechDetected samples = true) :
    (onaudioprocess captured st now true samples).2 = some (encodeFramePcm16 samples)
  ∧ (frameBytes (encodeFramePcm16 samples)).length = 2 * samples.length
  ∧ ∀ v ∈ encodeFramePcm16 samples, -32768 ≤ v ∧ v ≤ 32767 := by
  refine ⟨by simp [onaudioprocess, h], ?_, ?_⟩
  · rw [frameBytes_length]
    simp only [encodeFramePcm16, List.length_map]
  · intro v hv
    simp only [encodeFramePcm16, List.mem_map] at hv
    obtain ⟨x, _, rfl⟩ := hv
    exact pcm16Sample_range x

/-- C5 witness: the frame with the single sample one. -/
theorem pcm16_frame_encoding_witness :
    isSpeechDetected [1] = true
  ∧ (onaudioprocess false (VadState.mk false none) 0 true [1]).2
      = some (encodeFramePcm16 [1]) :=
  ⟨by norm_num [isSpeechDetected, sumSquares, SPEECH_THRESHOLD],
   (pcm16_frame_encoding false (VadState.mk false none) 0 [1]
     (by norm_num [isSpeechDetected, sumSquares, SPEECH_THRESHOLD])).1⟩

/-! Claim C6: frames at or below the speech threshold are never
transmitted, whatever the speaking state. -/

/-- C6: when the frame's rms does not exceed the threshold, the handler
sends nothing, for every captured value, live state and socket state. -/
theorem below_threshold_never_sent (captured : Bool) (st : VadState) (now : ℕ)
    (wsOpen : Bool) (samples : List ℚ) (h : isSpeechDetected samples = false) :
    (onaudioprocess captured st now wsOpen samples).2 = none := by
  cases wsOpen <;> simp [onaudioprocess, h]
  split_ifs <;> rfl

/-- C6 witness: an all-zero frame while speaking on an open socket. -/
theorem below_threshold_never_sent_witness :
    isSpeechDetected [0] = false
  ∧ (onaudioprocess true (VadState.mk true none) 3 true [0]).2 = none :=
  ⟨by norm_num [isSpeechDetected, sumSquares, SPEECH_THRESHOLD],
   below_threshold_never_sent true (VadState.mk true none) 3 true [0]
     (by norm_num [isSpeechDetected, sumSquares, SPEECH_THRESHOLD])⟩

/-! Claim C8: keyword accumulation is idempotent under repeated
identical keywords and monotone. -/

/-- C8: merging keywords already present leaves their multiplicity
unchanged (one entry stays one entry); no accumulated keyword is ever
removed (multiplicities never decrease); and feeding the same new
keyword across two merges yields exactly one entry. -/
theorem keyword_accumulation (prev incoming : List String) (kw : String)
    (h : kw ∈ prev) :
    (mergeKeywords prev incoming).count kw = prev.count kw
  ∧ (∀ w, prev.count w ≤ (mergeKeywords prev incoming).count w)
  ∧ (∀ w, w ∉ prev →
      (mergeKeywords (mergeKeywords prev [w]) [w]).count w = 1) := by
  refine ⟨mergeKeywords_count_of_mem prev incoming kw h, ?_, ?_⟩
  · intro w
    unfold mergeKeywords
    rw [List.count_append]
    omega
  · intro w hw
    have h1 : mergeKeywords prev [w] = prev ++ [w] := by
      unfold mergeKeywords
      congr 1
      simp [hw]
    have h2 : w ∈ prev ++ [w] := by simp
    rw [h1, mergeKeywords_count_of_mem (prev ++ [w]) [w] w h2,
      List.count_append, List.count_eq_zero.mpr hw]
    simp

/-- C8 witness: the keyword happy arriving a second time. -/
theorem keyword_accumulation_witness :
    "happy" ∈ (["happy", "great"] : List String)
  ∧ (mergeKeywords ["happy", "great"] ["happy", "today"]).count "happy"
      = (["happy", "great"] : List String).count "happy" :=
  ⟨by decide,
   (keyword_accumulation ["happy", "great"] ["happy", "today"] "happy" (by decide)).1⟩

end SentimentAura
